import Mathlib

/-!
Verification of the calorie-calculator engine in `streamlit_app.py`.
The numeric engine is embedded over ℚ: every constant of the source
(`0.453592`, `2.54`, `6.25`, the multiplier tables, `7700.0`) is the exact
rational the decimal denotes, and Python arithmetic is modelled exactly.
-/

namespace CalorieCounter

/-- `SexKey = Literal["Male", "Female"]`. -/
inductive SexKey
  | Male
  | Female
deriving DecidableEq

/-- `UnitsKey = Literal["Metric", "Imperial"]`. -/
inductive UnitsKey
  | Metric
  | Imperial
deriving DecidableEq

/-- `ActivityKey = Literal["Sedentary", "Light", "Moderate", "Very", "Extra"]`. -/
inductive ActivityKey
  | Sedentary
  | Light
  | Moderate
  | Very
  | Extra
deriving DecidableEq

/-- `BodyTypeKey = Literal["Ectomorph", "Mesomorph", "Endomorph"]`. -/
inductive BodyTypeKey
  | Ectomorph
  | Mesomorph
  | Endomorph
deriving DecidableEq

/-- `GoalKey = Literal["Maintain", "Lose Weight", "Gain Weight"]`. -/
inductive GoalKey
  | Maintain
  | LoseWeight
  | GainWeight
deriving DecidableEq

/-- The `ACTIVITY_MULTIPLIER` dict: Sedentary 1.2, Light 1.375, Moderate 1.55,
Very 1.725, Extra 1.9. -/
def ACTIVITY_MULTIPLIER : ActivityKey → ℚ
  | .Sedentary => 6/5
  | .Light => 11/8
  | .Moderate => 31/20
  | .Very => 69/40
  | .Extra => 19/10

/-- The `BODYTYPE_MULTIPLIER` dict: Ectomorph 1.05, Mesomorph 1.00, Endomorph 0.95. -/
def BODYTYPE_MULTIPLIER : BodyTypeKey → ℚ
  | .Ectomorph => 21/20
  | .Mesomorph => 1
  | .Endomorph => 19/20

/-- `KCAL_PER_KG = 7700.0`. -/
def KCAL_PER_KG : ℚ := 7700

/-- The `CalcResult` dataclass of the source, field for field. -/
structure CalcResult where
  bmr : ℚ
  tdee : ℚ
  calories : ℚ
  activity_multiplier : ℚ
  bodytype_multiplier : ℚ
  daily_delta_kcal : ℚ
  target_change_mass : ℚ
  target_weeks : ℤ
  protein_g : ℚ
  fats_g : ℚ
  carbs_g : ℚ
deriving DecidableEq

/-- `mifflin_st_jeor(sex, age, weight_kg, height_cm)`: the Mifflin-St Jeor BMR,
`10*weight_kg + 6.25*height_cm - 5*age + 5` for male and the same with `- 161`
for female. -/
def mifflin_st_jeor (sex : SexKey) (age weight_kg height_cm : ℚ) : ℚ :=
  if sex = .Male then
    10 * weight_kg + (625/100) * height_cm - 5 * age + 5
  else
    10 * weight_kg + (625/100) * height_cm - 5 * age - 161

/-- `convert_to_metric(units, weight, height)`: imperial weight is multiplied by
0.453592 (lb to kg) and height by 2.54 (in to cm); metric is unchanged. -/
def convert_to_metric (units : UnitsKey) (weight height : ℚ) : ℚ × ℚ :=
  if units = .Imperial then
    (weight * (453592/1000000), height * (254/100))
  else
    (weight, height)

/-- `convert_mass_to_kg(units, mass)`: the standalone mass conversion, imperial
multiplied by 0.453592, metric unchanged. -/
def convert_mass_to_kg (units : UnitsKey) (mass : ℚ) : ℚ :=
  if units = .Imperial then mass * (453592/1000000) else mass

/-- `macro_split(total_cal, weight_kg, protein_g_per_kg, fat_percent)` returning
`(protein_g, fats_g, carbs_g)`. -/
def macro_split (total_cal weight_kg protein_g_per_kg fat_percent : ℚ) :
    ℚ × ℚ × ℚ :=
  let protein_g := protein_g_per_kg * weight_kg
  let protein_kcal := protein_g * 4
  let fat_kcal := total_cal * fat_percent
  let fats_g := fat_kcal / 9
  let carbs_kcal := max (total_cal - protein_kcal - fat_kcal) 0
  let carbs_g := carbs_kcal / 4
  (protein_g, fats_g, carbs_g)

/-- `calculate_intake(...)` of the source, line for line: unit conversion, BMR,
TDEE, the weeks guard, the goal sign switch, `calories = tdee + daily_delta`,
then `macro_split` on the resulting calories. The source performs no input
validation and raises nothing; the function is total exactly as the source is. -/
def calculate_intake (sex : SexKey) (age weight height : ℚ) (units : UnitsKey)
    (activity : ActivityKey) (body_type : BodyTypeKey) (goal : GoalKey)
    (target_change_mass : ℚ) (target_weeks : ℤ)
    (protein_g_per_kg fat_percent : ℚ) : CalcResult :=
  let wh := convert_to_metric units weight height
  let w_kg := wh.1
  let h_cm := wh.2
  let target_kg := convert_mass_to_kg units |target_change_mass|
  let bmr := mifflin_st_jeor sex age w_kg h_cm
  let activity_x := ACTIVITY_MULTIPLIER activity
  let bodytype_x := BODYTYPE_MULTIPLIER body_type
  let tdee := bmr * activity_x * bodytype_x
  let daily_delta_raw : ℚ :=
    if target_weeks ≤ 0 then 0
    else (target_kg * KCAL_PER_KG) / ((target_weeks : ℚ) * 7)
  let daily_delta : ℚ :=
    if goal = .LoseWeight then -daily_delta_raw
    else if goal = .GainWeight then daily_delta_raw
    else 0
  let calories := tdee + daily_delta
  let macros := macro_split calories w_kg protein_g_per_kg fat_percent
  { bmr := bmr
    tdee := tdee
    calories := calories
    activity_multiplier := activity_x
    bodytype_multiplier := bodytype_x
    daily_delta_kcal := daily_delta
    target_change_mass := target_kg
    target_weeks := target_weeks
    protein_g := macros.1
    fats_g := macros.2.1
    carbs_g := macros.2.2 }

/-- The advisory computation on lines 208-210: `pct_of_tdee` is
`(abs(daily_delta) / tdee) * 100` when `tdee > 0` and `0` otherwise. -/
def pct_of_tdee (daily_delta_kcal tdee : ℚ) : ℚ :=
  if 0 < tdee then |daily_delta_kcal| / tdee * 100 else 0

/-- The advisory warning is shown exactly when `pct_of_tdee > 25`. -/
def warning_flag (daily_delta_kcal tdee : ℚ) : Bool :=
  25 < pct_of_tdee daily_delta_kcal tdee

/-- C1: with goal Maintain the computed `daily_delta_kcal` is exactly 0 and
`calories = tdee`, whatever target mass and timeframe are supplied, weeks = 0
included. -/
theorem c1_maintain_zero_delta (sex : SexKey) (age weight height : ℚ)
    (units : UnitsKey) (activity : ActivityKey) (body_type : BodyTypeKey)
    (tcm : ℚ) (tw : ℤ) (p f : ℚ) :
    (calculate_intake sex age weight height units activity body_type .Maintain
        tcm tw p f).daily_delta_kcal = 0 ∧
    (calculate_intake sex age weight height units activity body_type .Maintain
        tcm tw p f).calories =
      (calculate_intake sex age weight height units activity body_type .Maintain
        tcm tw p f).tdee := by
  simp [calculate_intake]

/-- C9 counterexample: the spec's reference value 1705 is wrong arithmetic.
`mifflin_st_jeor` on male, age 30, weight 70 kg, height 175 cm does not give
1705. -/
theorem c9_counterexample : mifflin_st_jeor .Male 30 70 175 ≠ 1705 := by
  norm_num [mifflin_st_jeor]

/-- C9 amended: on male, age 30, weight 70 kg, height 175 cm the computed BMR is
`10*70 + 6.25*175 - 5*30 + 5 = 1648.75` (= 6595/4), not 1705. -/
theorem c9_bmr_reference : mifflin_st_jeor .Male 30 70 175 = 6595 / 4 := by
  norm_num [mifflin_st_jeor]

/-- C7: `macro_split` computes `protein_g = protein_g_per_kg * weight_kg`,
`fats_g = total_cal * fat_percent / 9` and
`carbs_g = max(total_cal - 4*protein_g - total_cal*fat_percent, 0) / 4`; on
total 2500, weight 70, protein 2.0 g/kg, fat fraction 0.25 it yields
(140, 625/9 ≈ 69.4, 1315/4 = 328.75), and the macro kilocalories sum back to
2500. -/
theorem c7_macro_split_formulas (total_cal weight_kg protein_g_per_kg fat_percent : ℚ) :
    macro_split total_cal weight_kg protein_g_per_kg fat_percent =
      (protein_g_per_kg * weight_kg,
       total_cal * fat_percent / 9,
       max (total_cal - protein_g_per_kg * weight_kg * 4 - total_cal * fat_percent) 0 / 4) ∧
    macro_split 2500 70 2 (1/4) = (140, 625/9, 1315/4) ∧
    4 * (macro_split 2500 70 2 (1/4)).1 + 9 * (macro_split 2500 70 2 (1/4)).2.1
      + 4 * (macro_split 2500 70 2 (1/4)).2.2 = 2500 := by
  refine ⟨rfl, by norm_num [macro_split], by norm_num [macro_split]⟩

/-- C10: the advisory flag is set exactly when `|daily_delta| / tdee > 0.25`
(strict: at exactly 0.25 it is not set, as the samples 625/2500 and 626/2500
show); it is a flag computed beside the result, never a failure. -/
theorem c10_warning_iff (d t : ℚ) :
    (warning_flag d t = true ↔ |d| / t > 1/4) ∧
    warning_flag 625 2500 = false ∧ warning_flag 626 2500 = true := by
  refine ⟨?_, by norm_num [warning_flag, pct_of_tdee],
    by norm_num [warning_flag, pct_of_tdee]⟩
  unfold warning_flag pct_of_tdee
  by_cases ht : 0 < t
  · simp only [if_pos ht, decide_eq_true_eq, gt_iff_lt]
    constructor
    · intro h; linarith
    · intro h; linarith
  · simp only [if_neg ht, decide_eq_true_eq, gt_iff_lt]
    push_neg at ht
    rcases lt_or_eq_of_le ht with h | h
    · have hd : |d| / t ≤ 0 := div_nonpos_of_nonneg_of_nonpos (abs_nonneg d) h.le
      constructor
      · intro hc; linarith
      · intro hc; linarith
    · subst h
      simp only [div_zero]
      norm_num

/-- C3: with `weeks > 0` the daily delta is
`(target_kg * 7700) / (weeks * 7)` on the absolute target mass converted to
kilograms, negated for LoseWeight, positive for GainWeight (zero for Maintain),
and `calories = tdee + daily_delta`. -/
theorem c3_mass_timeframe_delta (sex : SexKey) (age weight height : ℚ)
    (units : UnitsKey) (activity : ActivityKey) (body_type : BodyTypeKey)
    (goal : GoalKey) (tcm : ℚ) (tw : ℤ) (p f : ℚ) (h : 0 < tw) :
    (calculate_intake sex age weight height units activity body_type goal
        tcm tw p f).daily_delta_kcal =
      (if goal = .LoseWeight then -1 else if goal = .GainWeight then 1 else 0) *
        (convert_mass_to_kg units |tcm| * 7700 / ((tw : ℚ) * 7)) ∧
    (calculate_intake sex age weight height units activity body_type goal
        tcm tw p f).calories =
      (calculate_intake sex age weight height units activity body_type goal
        tcm tw p f).tdee +
      (calculate_intake sex age weight height units activity body_type goal
        tcm tw p f).daily_delta_kcal := by
  have h' : ¬ tw ≤ 0 := not_le.mpr h
  refine ⟨?_, rfl⟩
  cases goal <;> simp [calculate_intake, h', KCAL_PER_KG]

/-- C3 witness: target 5 kg over 8 weeks with goal LoseWeight yields
`daily_delta = -(5 * 7700) / 56 = -687.5`. -/
theorem c3_mass_timeframe_delta_witness :
    (0:ℤ) < 8 ∧
    (calculate_intake .Male 30 70 175 .Metric .Sedentary .Mesomorph .LoseWeight
        5 8 2 (1/4)).daily_delta_kcal = -687.5 := by
  refine ⟨by decide, ?_⟩
  have h := (c3_mass_timeframe_delta .Male 30 70 175 .Metric .Sedentary
    .Mesomorph .LoseWeight 5 8 2 (1/4) (by decide)).1
  rw [h]
  simp [convert_mass_to_kg]
  norm_num

/-- C4: `weeks <= 0` yields `daily_delta = 0` for every goal, with no failure:
the guard on `target_weeks` short-circuits the division. -/
theorem c4_weeks_nonpos_zero_delta (sex : SexKey) (age weight height : ℚ)
    (units : UnitsKey) (activity : ActivityKey) (body_type : BodyTypeKey)
    (goal : GoalKey) (tcm : ℚ) (tw : ℤ) (p f : ℚ) (h : tw ≤ 0) :
    (calculate_intake sex age weight height units activity body_type goal
        tcm tw p f).daily_delta_kcal = 0 := by
  cases goal <;> simp [calculate_intake, h]

/-- C4 witness: weeks = 0 with goal LoseWeight and a nonzero target mass still
gives a zero delta. -/
theorem c4_weeks_nonpos_zero_delta_witness :
    (0:ℤ) ≤ 0 ∧
    (calculate_intake .Male 30 70 175 .Metric .Sedentary .Mesomorph .LoseWeight
        5 0 2 (1/4)).daily_delta_kcal = 0 :=
  ⟨by decide, c4_weeks_nonpos_zero_delta .Male 30 70 175 .Metric .Sedentary
    .Mesomorph .LoseWeight 5 0 2 (1/4) (by decide)⟩

/-- C5: the BMR is Mifflin-St Jeor with sex selecting only the additive offset
(+5 male, -161 female), `tdee = bmr * activity_x * bodytype_x`, and the lookup
tables are exactly sedentary 1.2, light 1.375, moderate 1.55, very 1.725,
extra 1.9 and ectomorph 1.05, mesomorph 1.00, endomorph 0.95. -/
theorem c5_bmr_tdee_multipliers (sex : SexKey) (age weight height : ℚ)
    (units : UnitsKey) (activity : ActivityKey) (body_type : BodyTypeKey)
    (goal : GoalKey) (tcm : ℚ) (tw : ℤ) (p f : ℚ) :
    (calculate_intake sex age weight height units activity body_type goal
        tcm tw p f).bmr =
      10 * (convert_to_metric units weight height).1
        + 6.25 * (convert_to_metric units weight height).2
        - 5 * age + (if sex = .Male then 5 else -161) ∧
    (calculate_intake sex age weight height units activity body_type goal
        tcm tw p f).tdee =
      (calculate_intake sex age weight height units activity body_type goal
          tcm tw p f).bmr
        * ACTIVITY_MULTIPLIER activity * BODYTYPE_MULTIPLIER body_type ∧
    ACTIVITY_MULTIPLIER .Sedentary = 1.2 ∧ ACTIVITY_MULTIPLIER .Light = 1.375 ∧
    ACTIVITY_MULTIPLIER .Moderate = 1.55 ∧ ACTIVITY_MULTIPLIER .Very = 1.725 ∧
    ACTIVITY_MULTIPLIER .Extra = 1.9 ∧
    BODYTYPE_MULTIPLIER .Ectomorph = 1.05 ∧ BODYTYPE_MULTIPLIER .Mesomorph = 1 ∧
    BODYTYPE_MULTIPLIER .Endomorph = 0.95 := by
  refine ⟨?_, rfl, by norm_num [ACTIVITY_MULTIPLIER],
    by norm_num [ACTIVITY_MULTIPLIER], by norm_num [ACTIVITY_MULTIPLIER],
    by norm_num [ACTIVITY_MULTIPLIER], by norm_num [ACTIVITY_MULTIPLIER],
    by norm_num [BODYTYPE_MULTIPLIER], by norm_num [BODYTYPE_MULTIPLIER],
    by norm_num [BODYTYPE_MULTIPLIER]⟩
  cases sex <;> simp [calculate_intake, mifflin_st_jeor] <;> ring_nf <;> norm_num

/-- C2 counterexample: `calculate_intake` performs no validation, so a full
`CalcResult` is produced even for weight = -1; the code defines no
`InvalidInputError` at all and never raises. -/
theorem c2_counterexample :
    calculate_intake .Male 30 (-1) 175 .Metric .Sedentary .Mesomorph .Maintain
        0 0 2 (1/4) =
      { bmr := 3755/4, tdee := 2253/2, calories := 2253/2,
        activity_multiplier := 6/5, bodytype_multiplier := 1,
        daily_delta_kcal := 0, target_change_mass := 0, target_weeks := 0,
        protein_g := -2, fats_g := 751/24, carbs_g := 6823/32 } := by
  simp [calculate_intake, mifflin_st_jeor, convert_to_metric, convert_mass_to_kg,
    macro_split, ACTIVITY_MULTIPLIER, BODYTYPE_MULTIPLIER, KCAL_PER_KG,
    CalcResult.mk.injEq]
  norm_num

/-- C2 amended: the engine never rejects non-positive weight or height; the
computation proceeds through the same pipeline (BMR from the converted values,
`calories = tdee + delta`, macros from `macro_split`) and returns a complete
`CalcResult`. The only range enforcement is in the form layer. -/
theorem c2_no_validation (sex : SexKey) (age weight height : ℚ)
    (units : UnitsKey) (activity : ActivityKey) (body_type : BodyTypeKey)
    (goal : GoalKey) (tcm : ℚ) (tw : ℤ) (p f : ℚ)
    (h : weight ≤ 0 ∨ height ≤ 0) :
    (calculate_intake sex age weight height units activity body_type goal
        tcm tw p f).bmr =
      mifflin_st_jeor sex age (convert_to_metric units weight height).1
        (convert_to_metric units weight height).2 ∧
    (calculate_intake sex age weight height units activity body_type goal
        tcm tw p f).calories =
      (calculate_intake sex age weight height units activity body_type goal
        tcm tw p f).tdee +
      (calculate_intake sex age weight height units activity body_type goal
        tcm tw p f).daily_delta_kcal ∧
    ((calculate_intake sex age weight height units activity body_type goal
        tcm tw p f).protein_g,
     (calculate_intake sex age weight height units activity body_type goal
        tcm tw p f).fats_g,
     (calculate_intake sex age weight height units activity body_type goal
        tcm tw p f).carbs_g) =
      macro_split
        (calculate_intake sex age weight height units activity body_type goal
          tcm tw p f).calories
        (convert_to_metric units weight height).1 p f :=
  ⟨rfl, rfl, rfl⟩

/-- C2 witness: at weight = -1 (non-positive) the pipeline still runs. -/
theorem c2_no_validation_witness :
    ((-1 : ℚ) ≤ 0 ∨ (175 : ℚ) ≤ 0) ∧
    (calculate_intake .Male 30 (-1) 175 .Metric .Sedentary .Mesomorph .Maintain
        0 0 2 (1/4)).bmr =
      mifflin_st_jeor .Male 30
        (convert_to_metric .Metric (-1) 175).1
        (convert_to_metric .Metric (-1) 175).2 :=
  ⟨Or.inl (by norm_num),
   (c2_no_validation .Male 30 (-1) 175 .Metric .Sedentary .Mesomorph .Maintain
      0 0 2 (1/4) (Or.inl (by norm_num))).1⟩

/-- C6 counterexample: `fats_g` is not clamped and goes negative when the
computed calories are negative, which form-valid inputs reach: goal LoseWeight,
target 100 kg over 1 week gives calories = 1978.5 - 110000 < 0 and so
fats_g = -216043/72 < 0. -/
theorem c6_counterexample :
    (calculate_intake .Male 30 70 175 .Metric .Sedentary .Mesomorph .LoseWeight
        100 1 2 (1/4)).fats_g < 0 := by
  simp [calculate_intake, mifflin_st_jeor, convert_to_metric, convert_mass_to_kg,
    macro_split, ACTIVITY_MULTIPLIER, BODYTYPE_MULTIPLIER, KCAL_PER_KG]
  norm_num

/-- C6 amended: `carbs_g >= 0` for every input and carbohydrate is the only
clamped macro (it is forced to 0 whenever protein plus fat kilocalories reach
the total); `protein_g >= 0` whenever `protein_g_per_kg` and `weight_kg` are
nonnegative, and `fats_g >= 0` whenever the total calories and the fat fraction
are nonnegative — but not for every input, since the total can be negative. -/
theorem c6_macro_nonneg (tc w p f : ℚ) :
    0 ≤ (macro_split tc w p f).2.2 ∧
    (0 ≤ p → 0 ≤ w → 0 ≤ (macro_split tc w p f).1) ∧
    (0 ≤ tc → 0 ≤ f → 0 ≤ (macro_split tc w p f).2.1) ∧
    (tc - p * w * 4 - tc * f ≤ 0 → (macro_split tc w p f).2.2 = 0) := by
  refine ⟨?_, ?_, ?_, ?_⟩
  · show 0 ≤ max (tc - p * w * 4 - tc * f) 0 / 4
    exact div_nonneg (le_max_right _ _) (by norm_num)
  · intro hp hw
    exact mul_nonneg hp hw
  · intro htc hf
    exact div_nonneg (mul_nonneg htc hf) (by norm_num)
  · intro hle
    show max (tc - p * w * 4 - tc * f) 0 / 4 = 0
    rw [max_eq_right hle]
    norm_num

/-- C6 witness: at the boundary where protein plus fat kilocalories exhaust the
budget (total 560, weight 70, protein 2 g/kg, fat fraction 0: protein alone is
560 kcal) the carbs are clamped to exactly 0, and all macros are nonnegative. -/
theorem c6_macro_nonneg_witness :
    0 ≤ (macro_split 560 70 2 0).2.2 ∧
    0 ≤ (macro_split 560 70 2 0).1 ∧
    0 ≤ (macro_split 560 70 2 0).2.1 ∧
    (macro_split 560 70 2 0).2.2 = 0 :=
  ⟨(c6_macro_nonneg 560 70 2 0).1,
   (c6_macro_nonneg 560 70 2 0).2.1 (by norm_num) (by norm_num),
   (c6_macro_nonneg 560 70 2 0).2.2.1 (by norm_num) (by norm_num),
   (c6_macro_nonneg 560 70 2 0).2.2.2 (by norm_num)⟩

/-- C8 counterexample: tdee > 0 fails inside the declared input bounds: female,
age 120, weight 20 kg, height 80 cm (each within the form's min/max) gives
bmr = -61 and tdee = -73.2 < 0. -/
theorem c8_counterexample :
    (calculate_intake .Female 120 20 80 .Metric .Sedentary .Mesomorph .Maintain
        0 0 2 (1/4)).tdee < 0 := by
  simp [calculate_intake, mifflin_st_jeor, convert_to_metric,
    ACTIVITY_MULTIPLIER, BODYTYPE_MULTIPLIER]
  norm_num

/-- C8 amended: tdee > 0 holds whenever bmr > 0 (both multipliers are
positive), though not for every in-bounds input; and
`calories > 0` whenever `|daily_delta| < tdee`, for every input. -/
theorem c8_tdee_calories_pos (sex : SexKey) (age weight height : ℚ)
    (units : UnitsKey) (activity : ActivityKey) (body_type : BodyTypeKey)
    (goal : GoalKey) (tcm : ℚ) (tw : ℤ) (p f : ℚ) :
    (0 < (calculate_intake sex age weight height units activity body_type goal
        tcm tw p f).bmr →
      0 < (calculate_intake sex age weight height units activity body_type goal
        tcm tw p f).tdee) ∧
    (|(calculate_intake sex age weight height units activity body_type goal
        tcm tw p f).daily_delta_kcal| <
        (calculate_intake sex age weight height units activity body_type goal
          tcm tw p f).tdee →
      0 < (calculate_intake sex age weight height units activity body_type goal
        tcm tw p f).calories) := by
  constructor
  · intro hb
    have ha : 0 < ACTIVITY_MULTIPLIER activity := by
      cases activity <;> norm_num [ACTIVITY_MULTIPLIER]
    have hbt : 0 < BODYTYPE_MULTIPLIER body_type := by
      cases body_type <;> norm_num [BODYTYPE_MULTIPLIER]
    have he : (calculate_intake sex age weight height units activity body_type
        goal tcm tw p f).tdee =
        (calculate_intake sex age weight height units activity body_type goal
          tcm tw p f).bmr * ACTIVITY_MULTIPLIER activity
          * BODYTYPE_MULTIPLIER body_type := rfl
    rw [he]
    exact mul_pos (mul_pos hb ha) hbt
  · intro hlt
    have hcal : (calculate_intake sex age weight height units activity body_type
        goal tcm tw p f).calories =
        (calculate_intake sex age weight height units activity body_type goal
          tcm tw p f).tdee +
        (calculate_intake sex age weight height units activity body_type goal
          tcm tw p f).daily_delta_kcal := rfl
    rw [hcal]
    have hab := abs_lt.mp hlt
    linarith [hab.1]

/-- C8 witness: on the default form input (male, 30, 70 kg, 175 cm, sedentary,
mesomorph, maintain) bmr > 0 gives tdee > 0, and the zero delta is below tdee
so calories > 0. -/
theorem c8_tdee_calories_pos_witness :
    0 < (calculate_intake .Male 30 70 175 .Metric .Sedentary .Mesomorph
        .Maintain 0 0 2 (1/4)).tdee ∧
    0 < (calculate_intake .Male 30 70 175 .Metric .Sedentary .Mesomorph
        .Maintain 0 0 2 (1/4)).calories := by
  have h := c8_tdee_calories_pos .Male 30 70 175 .Metric .Sedentary .Mesomorph
    .Maintain 0 0 2 (1/4)
  have hb : 0 < (calculate_intake .Male 30 70 175 .Metric .Sedentary .Mesomorph
      .Maintain 0 0 2 (1/4)).bmr := by
    simp [calculate_intake, mifflin_st_jeor, convert_to_metric]
    norm_num
  have ht := h.1 hb
  refine ⟨ht, h.2 ?_⟩
  have hd : (calculate_intake .Male 30 70 175 .Metric .Sedentary .Mesomorph
      .Maintain 0 0 2 (1/4)).daily_delta_kcal = 0 := by
    simp [calculate_intake]
  rw [hd]
  simpa using ht

end CalorieCounter
